import Mathlib

/-!
# Verification of the IPTV mediation layer (`src/main.py`)

Shallow embedding of the fetch-with-TTL cache, channel filter, stream
joiner, refresh pipeline and scheduled refresh task of `src/main.py`.

Modelling conventions:
* Python dicts keyed by URL strings become association lists
  (`dlookup` / `dinsert`, the latter overwriting an existing key in place,
  as Python dict assignment does).
* `datetime.utcnow()` becomes a `Nat` timestamp passed in as `now`;
  `timedelta(seconds=CACHE_TTL)` becomes `+ CACHE_TTL`.
* The outcome of `requests.get(url)` + `raise_for_status` + `.json()` is an
  input `net : Option α`: `some data` for a successful fetch and parse,
  `none` for any `requests.exceptions.RequestException`.
* Python exceptions are modelled with `Except`.  The only statement in the
  embedded code that can raise outside a `try` block is the subscript
  `cache_expiry[url]` (a `KeyError`); `PyExc` models Python's exception
  hierarchy far enough to distinguish `Exception` subclasses (caught by
  `except Exception`) from `BaseException`-only classes.
* The global cache dict holds payloads of two shapes under two distinct
  constant URL keys; it is represented by its two disjoint key slices
  (`AppState.chSt` for the channels URL, `AppState.stSt` for the streams
  URL).  All dict operations in the source touch a single fixed key, so
  the slices never interact.
* `match_streams_to_channels` mutates the channel dicts in place; since
  those dicts are the elements of the cached channels list, a pipeline run
  that reaches the join also rewrites the cache entry.  The value-level
  effect of that in-place mutation on the cached list is `join_effect`.
* A third component `Bool` in a fetch result records whether the call
  reached `requests.get` (a network access), instrumenting the
  observable side effect the spec talks about.
-/

/-- `CACHE_TTL = 600` (seconds) from `src/main.py`. -/
def CACHE_TTL : Nat := 600

/-- `FETCH_INTERVAL = 300` (seconds) from `src/main.py`. -/
def FETCH_INTERVAL : Nat := 300

/-- `IPTV_CHANNELS_URL` from `src/main.py`. -/
def IPTV_CHANNELS_URL : String := "https://iptv-org.github.io/api/channels.json"

/-- `IPTV_STREAMS_URL` from `src/main.py`. -/
def IPTV_STREAMS_URL : String := "https://iptv-org.github.io/api/streams.json"

/-- `INCLUDED_COUNTRIES = []` from `src/main.py`. -/
def INCLUDED_COUNTRIES : List String := []

/-- `INCLUDED_LANGUAGES` from `src/main.py`. -/
def INCLUDED_LANGUAGES : List String :=
  ["fars", "spa", "ron", "rus", "fra", "deu", "eng"]

/-- `EXCLUDED_CATEGORIES = []` from `src/main.py`. -/
def EXCLUDED_CATEGORIES : List String := []

/-- Dict lookup, `d.get(k)` / `k in d` on a Python dict modelled as an
association list. -/
def dlookup (k : String) : List (String × α) → Option α
  | [] => none
  | p :: rest => if p.1 = k then some p.2 else dlookup k rest

/-- Dict assignment `d[k] = v`: overwrite the existing binding in place, or
append a new one. -/
def dinsert (k : String) (v : α) : List (String × α) → List (String × α)
  | [] => [(k, v)]
  | p :: rest => if p.1 = k then (k, v) :: rest else p :: dinsert k v rest

/-- The two module-level dicts `cache` and `cache_expiry` of `src/main.py`,
restricted to the keys holding payloads of type `α`. -/
structure FetchState (α : Type) where
  cache : List (String × α)
  cache_expiry : List (String × Nat)
deriving DecidableEq

/-- The empty initial state: `cache = {}` and `cache_expiry = {}`. -/
def initialFetchState (α : Type) : FetchState α := ⟨[], []⟩

/-- Python exceptions, modelled far enough for `except Exception`:
`systemExit` and `keyboardInterrupt` derive only from `BaseException`,
everything else derives from `Exception`. -/
inductive PyExc where
  | keyError (key : String)
  | requestException (msg : String)
  | otherException (msg : String)
  | systemExit
  | keyboardInterrupt
deriving DecidableEq

/-- Whether `except Exception` catches this exception. -/
def PyExc.isException : PyExc → Bool
  | .systemExit => false
  | .keyboardInterrupt => false
  | _ => true

/-- `fetch_with_cache(url)` from `src/main.py` (lines 26–45).

* freshness check `url in cache and cache_expiry[url] > now`: the
  subscript `cache_expiry[url]` raises `KeyError` if the key is missing
  while `url in cache` holds;
* on a fresh hit, return the cached payload with no network access;
* otherwise attempt the network fetch (`net`): on success store payload
  and expiry `now + CACHE_TTL` and return the payload, on
  `RequestException` return `cache.get(url, None)`.

Result: `(returned value, updated state, network access attempted)`. -/
def fetch_with_cache (now : Nat) (net : Option α) (url : String)
    (st : FetchState α) : Except PyExc (Option α × FetchState α × Bool) :=
  match dlookup url st.cache with
  | some cached =>
    match dlookup url st.cache_expiry with
    | none => .error (.keyError url)
    | some e =>
      if now < e then
        .ok (some cached, st, false)
      else
        match net with
        | some data =>
          .ok (some data,
            ⟨dinsert url data st.cache,
             dinsert url (now + CACHE_TTL) st.cache_expiry⟩, true)
        | none => .ok (some cached, st, true)
  | none =>
    match net with
    | some data =>
      .ok (some data,
        ⟨dinsert url data st.cache,
         dinsert url (now + CACHE_TTL) st.cache_expiry⟩, true)
    | none => .ok (none, st, true)

/-- The caller-side reading of a fetch result's records: `None` carries no
records (`if not channels` treats it like an empty list). -/
def records_of (r : Option (List ρ)) : List ρ := r.getD []

/-- The caller-side reading of the failure sentinel: `None` (and only
`None`) signals that the fetch failed with nothing cached. -/
def signals_failure (r : Option (List ρ)) : Bool := r.isNone

/-- A stream record: the JSON dict fields read by `src/main.py`
(`stream.get('channel')`, `stream.get('url')`, `stream.get('title')`);
a missing key reads as `none`. -/
structure StreamRecord where
  channel : Option String
  url : Option String
  title : Option String
deriving DecidableEq

/-- A channel record: the JSON dict fields read by `src/main.py`; a
missing key reads as `none`, and `channel['streams'] = ...` in the joiner
sets the `streams` field. -/
structure Channel where
  id : Option String
  name : Option String
  country : Option String
  languages : Option (List String)
  categories : Option (List String)
  logo : Option String
  streams : Option (List StreamRecord)
deriving DecidableEq

/-- The per-channel predicate of `filter_channels` (lines 57–70 of
`src/main.py`), with the three module-level policy constants made
parameters:

* `country = channel.get('country', '')`;
* `country_match = country in INCLUDED_COUNTRIES if INCLUDED_COUNTRIES
  else True`;
* `language_match = any(lang in INCLUDED_LANGUAGES for lang in languages)`;
* `category_match = not any(cat in EXCLUDED_CATEGORIES for cat in
  categories)`. -/
def channel_passes (included_countries included_languages
    excluded_categories : List String) (channel : Channel) : Bool :=
  let country := channel.country.getD ""
  let languages := channel.languages.getD []
  let categories := channel.categories.getD []
  let country_match :=
    if included_countries.isEmpty then true
    else included_countries.contains country
  let language_match := languages.any fun lang =>
    included_languages.contains lang
  let category_match := !(categories.any fun cat =>
    excluded_categories.contains cat)
  country_match && language_match && category_match

/-- `filter_channels` generalized over the policy: keep, in order, the
channels satisfying all three predicates (the source appends each passing
channel to `filtered`). -/
def filter_channels_with (included_countries included_languages
    excluded_categories : List String) (channels : List Channel) :
    List Channel :=
  channels.filter
    (channel_passes included_countries included_languages
      excluded_categories)

/-- `filter_channels(channels)` from `src/main.py`, reading the fixed
module-level policy constants. -/
def filter_channels (channels : List Channel) : List Channel :=
  filter_channels_with INCLUDED_COUNTRIES INCLUDED_LANGUAGES
    EXCLUDED_CATEGORIES channels

/-- `match_streams_to_channels(channels, streams)` from `src/main.py`
(lines 81–87), as the value of the list it returns: for each channel,
`channel_streams = [s for s in streams if s.get('channel') ==
channel.get('id')]`; `channel['streams'] = channel_streams` only when that
list is non-empty (otherwise the dict, and hence any pre-existing
`streams` value, is left untouched). -/
def match_streams_to_channels (channels : List Channel)
    (streams : List StreamRecord) : List Channel :=
  channels.map fun channel =>
    let channel_streams := streams.filter fun s => s.channel == channel.id
    if channel_streams.isEmpty then channel
    else { channel with streams := some channel_streams }

/-- The value-level effect, on one element of the cached channels list, of
the in-place dict mutation performed by `match_streams_to_channels` during
a pipeline run: only channels that passed `filter_channels` are in the
`filtered_channels` list handed to the joiner, and of those only the ones
with a non-empty matching stream list are written to. -/
def join_effect (streams : List StreamRecord) (channel : Channel) : Channel :=
  if channel_passes INCLUDED_COUNTRIES INCLUDED_LANGUAGES
      EXCLUDED_CATEGORIES channel then
    let channel_streams := streams.filter fun s => s.channel == channel.id
    if channel_streams.isEmpty then channel
    else { channel with streams := some channel_streams }
  else channel

/-- The two slices of the global cache dict: the entry under
`IPTV_CHANNELS_URL` and the entry under `IPTV_STREAMS_URL`. -/
structure AppState where
  chSt : FetchState (List Channel)
  stSt : FetchState (List StreamRecord)
deriving DecidableEq

/-- Both cache dicts empty, as at module load. -/
def initialAppState : AppState :=
  ⟨initialFetchState (List Channel), initialFetchState (List StreamRecord)⟩

/-- `fetch_channels()` from `src/main.py` (lines 90–109), the Refresh
Pipeline:

1. `channels = fetch_with_cache(IPTV_CHANNELS_URL)`; `if not channels:
   return []` (both `None` and `[]` are falsy) — no stream fetch;
2. `streams = fetch_with_cache(IPTV_STREAMS_URL)`; `if not streams:
   return []`;
3. `filtered_channels = filter_channels(channels)`;
4. `return match_streams_to_channels(filtered_channels, streams)`.

Because `filtered_channels` holds the same dict objects as the cached
`channels` list, step 4's in-place writes also rewrite the cache entry
under `IPTV_CHANNELS_URL`; that aliasing is reflected by re-storing
`channels.map (join_effect streams)` there.  An uncaught exception carries
the state at the raise point.  The result's `Bool` records whether the
stream fetch was attempted. -/
def fetch_channels (now : Nat) (netCh : Option (List Channel))
    (netSt : Option (List StreamRecord)) (st : AppState) :
    Except (PyExc × AppState) (List Channel × AppState × Bool) :=
  match fetch_with_cache now netCh IPTV_CHANNELS_URL st.chSt with
  | .error e => .error (e, st)
  | .ok (chRes, chSt1, _) =>
    match chRes with
    | none => .ok ([], ⟨chSt1, st.stSt⟩, false)
    | some channels =>
      if channels.isEmpty then .ok ([], ⟨chSt1, st.stSt⟩, false)
      else
        match fetch_with_cache now netSt IPTV_STREAMS_URL st.stSt with
        | .error e => .error (e, ⟨chSt1, st.stSt⟩)
        | .ok (stRes, stSt1, _) =>
          match stRes with
          | none => .ok ([], ⟨chSt1, stSt1⟩, true)
          | some streams =>
            if streams.isEmpty then .ok ([], ⟨chSt1, stSt1⟩, true)
            else
              let filtered_channels := filter_channels channels
              let result :=
                match_streams_to_channels filtered_channels streams
              let chSt2 : FetchState (List Channel) :=
                ⟨dinsert IPTV_CHANNELS_URL
                   (channels.map (join_effect streams)) chSt1.cache,
                 chSt1.cache_expiry⟩
              .ok (result, ⟨chSt2, stSt1⟩, true)

/-- `refresh_data()` from `src/main.py` (lines 112–120), the scheduled
refresh task: run `fetch_channels()` under `try ... except Exception`;
an `Exception` subclass is caught and logged, anything else would
propagate. -/
def refresh_data (now : Nat) (netCh : Option (List Channel))
    (netSt : Option (List StreamRecord)) (st : AppState) :
    Except PyExc AppState :=
  match fetch_channels now netCh netSt st with
  | .ok (_, st', _) => .ok st'
  | .error (e, stE) => if e.isException then .ok stE else .error e

/-- States of one cache slice reachable from the empty dicts by any
sequence of non-raising `fetch_with_cache` calls. -/
inductive CacheReachable : FetchState α → Prop where
  | init : CacheReachable (initialFetchState α)
  | step {st st' : FetchState α} {now : Nat} {net : Option α}
      {url : String} {r : Option α} {b : Bool} :
      CacheReachable st →
      fetch_with_cache now net url st = .ok (r, st', b) →
      CacheReachable st'

/-- Key invariant of the two cache dicts: every key of `cache` is also a
key of `cache_expiry`. -/
def cache_keys_covered (st : FetchState α) : Prop :=
  ∀ url, (dlookup url st.cache).isSome = true →
    (dlookup url st.cache_expiry).isSome = true

/-- Sample stream record: `{channel: "ch1", url: "http://a"}`. -/
def sampleStream : StreamRecord := ⟨some "ch1", some "http://a", none⟩

/-- Sample channel record: `{id: "ch1", name: "Chan", country: "US",
languages: ["eng"], categories: []}`, not yet joined. -/
def sampleChannel : Channel :=
  ⟨some "ch1", some "Chan", some "US", some ["eng"], some [], none, none⟩

/-- `sampleChannel` after a join attached `[sampleStream]`. -/
def sampleChannelJoined : Channel :=
  { sampleChannel with streams := some [sampleStream] }

/-- A cache state holding fresh entries `[sampleChannel]` and
`[sampleStream]` under the two URLs, both expiring at time 600. -/
def sampleAppState : AppState :=
  ⟨⟨[(IPTV_CHANNELS_URL, [sampleChannel])], [(IPTV_CHANNELS_URL, 600)]⟩,
   ⟨[(IPTV_STREAMS_URL, [sampleStream])], [(IPTV_STREAMS_URL, 600)]⟩⟩

/-- A channels-slice cache state whose single entry holds an empty record
list that is already stale at time 600. -/
def staleEmptyFetchState : FetchState (List Channel) :=
  ⟨[(IPTV_CHANNELS_URL, [])], [(IPTV_CHANNELS_URL, 600)]⟩

/-- A channels-slice cache state holding `[sampleChannel]` with expiry
timestamp 600: fresh before time 600, stale from time 600 on. -/
def sampleFetchState : FetchState (List Channel) :=
  ⟨[(IPTV_CHANNELS_URL, [sampleChannel])], [(IPTV_CHANNELS_URL, 600)]⟩

/-- `sampleAppState` after a pipeline run joined `sampleStream` onto the
cached copy of `sampleChannel`. -/
def sampleAppStateJoined : AppState :=
  ⟨⟨[(IPTV_CHANNELS_URL, [sampleChannelJoined])], [(IPTV_CHANNELS_URL, 600)]⟩,
   ⟨[(IPTV_STREAMS_URL, [sampleStream])], [(IPTV_STREAMS_URL, 600)]⟩⟩

/-- A channel record with no `country` key:
`{id: "ch2", languages: ["eng"], categories: []}`. -/
def sampleChannelNoCountry : Channel :=
  ⟨some "ch2", none, none, some ["eng"], some [], none, none⟩

/-! ## Helper lemmas about the dict operations and the cache -/

/-- Looking a key up after a dict assignment: the assigned key reads back
the new value, every other key is untouched. -/
theorem dlookup_dinsert (k q : String) (v : α) (l : List (String × α)) :
    dlookup q (dinsert k v l) = if k = q then some v else dlookup q l := by
  induction l with
  | nil => simp [dlookup, dinsert]
  | cons p rest ih =>
    by_cases hpk : p.1 = k <;> by_cases hkq : k = q <;>
      simp_all [dlookup, dinsert]

/-- Anatomy of a non-raising `fetch_with_cache` call: the returned value
is always exactly what the updated cache holds under `url`, and the state
either is untouched or has both dicts updated together at `url` after a
successful fetch. -/
theorem fetch_with_cache_ok_inv {α : Type} {now : Nat} {net : Option α}
    {url : String} {st st' : FetchState α} {r : Option α} {b : Bool}
    (h : fetch_with_cache now net url st = .ok (r, st', b)) :
    r = dlookup url st'.cache ∧
    (st' = st ∨ ∃ data, net = some data ∧
      st' = ⟨dinsert url data st.cache,
             dinsert url (now + CACHE_TTL) st.cache_expiry⟩) := by
  unfold fetch_with_cache at h
  cases hc : dlookup url st.cache with
  | none =>
    simp only [hc] at h
    cases net with
    | none =>
      simp only [Except.ok.injEq, Prod.mk.injEq] at h
      obtain ⟨h1, h2, h3⟩ := h
      subst h1; subst h2
      exact ⟨hc.symm, Or.inl rfl⟩
    | some data =>
      simp only [Except.ok.injEq, Prod.mk.injEq] at h
      obtain ⟨h1, h2, h3⟩ := h
      subst h1; subst h2
      refine ⟨?_, Or.inr ⟨data, rfl, rfl⟩⟩
      simp [dlookup_dinsert]
  | some cached =>
    simp only [hc] at h
    cases he : dlookup url st.cache_expiry with
    | none =>
      simp only [he] at h
      exact Except.noConfusion h
    | some e =>
      simp only [he] at h
      by_cases hfresh : now < e
      · rw [if_pos hfresh] at h
        simp only [Except.ok.injEq, Prod.mk.injEq] at h
        obtain ⟨h1, h2, h3⟩ := h
        subst h1; subst h2
        exact ⟨hc.symm, Or.inl rfl⟩
      · rw [if_neg hfresh] at h
        cases net with
        | none =>
          simp only [Except.ok.injEq, Prod.mk.injEq] at h
          obtain ⟨h1, h2, h3⟩ := h
          subst h1; subst h2
          exact ⟨hc.symm, Or.inl rfl⟩
        | some data =>
          simp only [Except.ok.injEq, Prod.mk.injEq] at h
          obtain ⟨h1, h2, h3⟩ := h
          subst h1; subst h2
          refine ⟨?_, Or.inr ⟨data, rfl, rfl⟩⟩
          simp [dlookup_dinsert]

/-- A raising `fetch_with_cache` call can only be the `KeyError` of the
freshness check: the key is in `cache` but missing from `cache_expiry`. -/
theorem fetch_with_cache_error_cases {α : Type} {now : Nat} {net : Option α}
    {url : String} {st : FetchState α} {e : PyExc}
    (h : fetch_with_cache now net url st = .error e) :
    e = .keyError url ∧ (dlookup url st.cache).isSome = true ∧
      dlookup url st.cache_expiry = none := by
  unfold fetch_with_cache at h
  cases hc : dlookup url st.cache with
  | none =>
    simp only [hc] at h
    cases net <;> simp_all
  | some cached =>
    simp only [hc] at h
    cases he : dlookup url st.cache_expiry with
    | none =>
      simp only [he, Except.error.injEq] at h
      exact ⟨h.symm, rfl, rfl⟩
    | some x =>
      simp only [he] at h
      by_cases hfresh : now < x
      · rw [if_pos hfresh] at h; exact absurd h (by simp)
      · rw [if_neg hfresh] at h
        cases net <;> simp_all

/-- On a state whose cache keys are all covered by expiry keys,
`fetch_with_cache` never raises. -/
theorem fetch_no_error_of_covered {α : Type} {st : FetchState α}
    (hcov : cache_keys_covered st) (now : Nat) (net : Option α)
    (url : String) (e : PyExc) :
    fetch_with_cache now net url st ≠ .error e := by
  intro h
  obtain ⟨_, hsome, hnone⟩ := fetch_with_cache_error_cases h
  have := hcov url hsome
  rw [hnone] at this
  simp at this

/-- One non-raising `fetch_with_cache` call preserves the key-coverage
invariant of the two dicts. -/
theorem cache_keys_covered_preserved {α : Type} {st st' : FetchState α}
    {now : Nat} {net : Option α} {url : String} {r : Option α} {b : Bool}
    (hcov : cache_keys_covered st)
    (heq : fetch_with_cache now net url st = .ok (r, st', b)) :
    cache_keys_covered st' := by
  rcases (fetch_with_cache_ok_inv heq).2 with rfl | ⟨data, hnet, rfl⟩
  · exact hcov
  · intro u hmem
    simp only [dlookup_dinsert] at hmem ⊢
    by_cases hk : url = u
    · simp [hk]
    · rw [if_neg hk] at hmem ⊢
      exact hcov u hmem

/-- The pipeline can only raise the `KeyError` of one of its two fetch
calls, always an `Exception` subclass. -/
theorem fetch_channels_error_keyError {now : Nat}
    {netCh : Option (List Channel)} {netSt : Option (List StreamRecord)}
    {st : AppState} {e : PyExc} {stE : AppState}
    (h : fetch_channels now netCh netSt st = .error (e, stE)) :
    ∃ k, e = .keyError k := by
  unfold fetch_channels at h
  cases hch : fetch_with_cache now netCh IPTV_CHANNELS_URL st.chSt with
  | error e1 =>
    simp only [hch, Except.error.injEq, Prod.mk.injEq] at h
    exact ⟨IPTV_CHANNELS_URL,
      h.1.symm.trans (fetch_with_cache_error_cases hch).1⟩
  | ok res =>
    obtain ⟨chRes, chSt1, b1⟩ := res
    simp only [hch] at h
    cases chRes with
    | none => simp at h
    | some channels =>
      by_cases hch0 : channels.isEmpty
      · simp [hch0] at h
      · simp only [hch0, if_false, Bool.false_eq_true, ite_false] at h
        cases hst : fetch_with_cache now netSt IPTV_STREAMS_URL st.stSt with
        | error e2 =>
          simp only [hst, Except.error.injEq, Prod.mk.injEq] at h
          exact ⟨IPTV_STREAMS_URL,
            h.1.symm.trans (fetch_with_cache_error_cases hst).1⟩
        | ok res2 =>
          obtain ⟨stRes, stSt1, b2⟩ := res2
          simp only [hst] at h
          cases stRes with
          | none => simp at h
          | some streams =>
            by_cases hst0 : streams.isEmpty
            · simp [hst0] at h
            · simp [hst0] at h

/-! ## Claim theorems -/

/-- C1.  The Channel Filter includes a channel record iff
(`includedCountries` is empty or the channel's country is one of them)
and (the channel has at least one language among `includedLanguages`)
and (none of the channel's categories is in `excludedCategories`);
a missing country/languages/categories field reads as `''`/`[]`/`[]`. -/
theorem filter_channels_includes_iff
    (included_countries included_languages excluded_categories : List String)
    (c : Channel) :
    c ∈ filter_channels_with included_countries included_languages
        excluded_categories [c] ↔
      ((included_countries = [] ∨ c.country.getD "" ∈ included_countries) ∧
       (∃ lang ∈ c.languages.getD [], lang ∈ included_languages) ∧
       (∀ cat ∈ c.categories.getD [], cat ∉ excluded_categories)) := by
  by_cases hinc : included_countries = [] <;>
    simp [filter_channels_with, channel_passes, List.mem_filter,
      List.any_eq_true, List.isEmpty_iff, hinc, and_assoc]

/-- C10.  Whenever `includedCountries` is non-empty, a channel record
with no `country` field is excluded by the Channel Filter regardless of
its languages and categories: the missing country reads as `''`, which is
never a member of a set of country codes. -/
theorem missing_country_excluded
    (included_countries included_languages excluded_categories : List String)
    (c : Channel) (channels : List Channel)
    (hne : included_countries ≠ [])
    (hcode : "" ∉ included_countries)
    (hcountry : c.country = none) :
    c ∉ filter_channels_with included_countries included_languages
        excluded_categories channels := by
  intro hmem
  rw [filter_channels_with, List.mem_filter] at hmem
  have hpass := hmem.2
  simp [channel_passes, List.isEmpty_iff, hne, hcountry] at hpass
  exact hcode hpass.1.1

/-- Witness for C10 at a concrete channel and policy. -/
theorem missing_country_excluded_witness :
    sampleChannelNoCountry ∉
      filter_channels_with ["US"] ["eng"] [] [sampleChannelNoCountry] :=
  missing_country_excluded ["US"] ["eng"] [] sampleChannelNoCountry
    [sampleChannelNoCountry] (by decide) (by decide) rfl

/-- C3.  Cold miss: if no cache entry exists for the URL and the network
fetch fails, `fetch_with_cache` attempts the network, leaves the state
unchanged and returns `None` — read by callers as an empty record list
(`records_of`) together with the failure signal (`signals_failure`). -/
theorem cold_miss_returns_failure {ρ : Type} (now : Nat) (url : String)
    (st : FetchState (List ρ)) (hmiss : dlookup url st.cache = none) :
    fetch_with_cache now none url st = .ok (none, st, true) ∧
    records_of (none : Option (List ρ)) = [] ∧
    signals_failure (none : Option (List ρ)) = true := by
  refine ⟨?_, rfl, rfl⟩
  unfold fetch_with_cache
  rw [hmiss]

/-- Witness for C3 on the empty initial cache. -/
theorem cold_miss_returns_failure_witness :
    fetch_with_cache 0 none IPTV_CHANNELS_URL
        (initialFetchState (List Channel)) =
      .ok (none, initialFetchState (List Channel), true) :=
  (cold_miss_returns_failure 0 IPTV_CHANNELS_URL
    (initialFetchState (List Channel)) rfl).1

/-- C2 (amended).  Stale fallback: if a (stale) cache entry exists for the
URL and the network fetch fails, `fetch_with_cache` returns exactly that
prior entry's records with a non-failure outcome (`some`, not the `None`
failure sentinel), leaving the state unchanged; the result is empty only
when the cached records themselves are empty. -/
theorem stale_fallback_returns_cached {α : Type} (now : Nat) (url : String)
    (st : FetchState α) (d : α) (e : Nat)
    (hc : dlookup url st.cache = some d)
    (he : dlookup url st.cache_expiry = some e)
    (hstale : ¬ now < e) :
    fetch_with_cache now none url st = .ok (some d, st, true) := by
  unfold fetch_with_cache
  simp [hc, he, hstale]

/-- Witness for C2's amended theorem on a concrete stale entry. -/
theorem stale_fallback_returns_cached_witness :
    fetch_with_cache 600 none IPTV_CHANNELS_URL sampleFetchState =
      .ok (some [sampleChannel], sampleFetchState, true) :=
  stale_fallback_returns_cached 600 IPTV_CHANNELS_URL sampleFetchState
    [sampleChannel] 600 rfl rfl (by decide)

/-- Counterexample to C2 as stated: a prior cache entry may hold an empty
record list (a successful fetch stores whatever list was parsed), and then
a failed re-fetch returns that entry — an empty result — even though a
cache entry for the resource exists. -/
theorem stale_fallback_empty_payload_cex :
    dlookup IPTV_CHANNELS_URL staleEmptyFetchState.cache =
      some ([] : List Channel) ∧
    fetch_with_cache 600 none IPTV_CHANNELS_URL staleEmptyFetchState =
      .ok (some [], staleEmptyFetchState, true) ∧
    records_of (some ([] : List Channel)) = [] :=
  ⟨rfl, rfl, rfl⟩

/-- C6.  Fresh-cache: if `fetch_with_cache` is called again while the
entry left by a first call is still within its TTL window, the second
call performs no network access, changes nothing, and returns the very
records the first call returned. -/
theorem fresh_cache_second_call_no_network {α : Type}
    (now1 now2 : Nat) (net1 net2 : Option α) (url : String)
    (st st1 : FetchState α) (r1 : Option α) (b1 : Bool) (d : α) (e : Nat)
    (h1 : fetch_with_cache now1 net1 url st = .ok (r1, st1, b1))
    (hc : dlookup url st1.cache = some d)
    (he : dlookup url st1.cache_expiry = some e)
    (hfresh : now2 < e) :
    fetch_with_cache now2 net2 url st1 = .ok (r1, st1, false) ∧
      r1 = some d := by
  have hr : r1 = dlookup url st1.cache := (fetch_with_cache_ok_inv h1).1
  rw [hc] at hr
  refine ⟨?_, hr⟩
  unfold fetch_with_cache
  simp [hc, he, hfresh, hr]

/-- Witness for C6: populate the cache at time 0, re-read at time 1. -/
theorem fresh_cache_second_call_no_network_witness :
    fetch_with_cache 1 none IPTV_CHANNELS_URL sampleFetchState =
      .ok (some [sampleChannel], sampleFetchState, false) :=
  (fresh_cache_second_call_no_network 0 1 (some [sampleChannel]) none
    IPTV_CHANNELS_URL (initialFetchState (List Channel)) sampleFetchState
    (some [sampleChannel]) true [sampleChannel] 600 rfl rfl rfl
    (by decide)).1

/-- C4 (amended).  Pointwise behaviour of the Stream Joiner: the output
has one channel per input channel, in order; the `i`-th output channel
agrees with the `i`-th input channel on every field except `streams`;
its `streams` field is exactly the subsequence of the stream list whose
`channel` foreign key equals the channel's `id`, in original order, when
that subsequence is non-empty — and is left *unchanged* (not cleared)
when the subsequence is empty.  A stream whose foreign key matches two
channels is collected by both, since each channel filters the full
stream list independently. -/
theorem join_pointwise_spec (channels : List Channel)
    (streams : List StreamRecord) (i : Nat) (c : Channel)
    (h : channels.get? i = some c) :
    ∃ c', (match_streams_to_channels channels streams).get? i = some c' ∧
      c'.id = c.id ∧ c'.name = c.name ∧ c'.country = c.country ∧
      c'.languages = c.languages ∧ c'.categories = c.categories ∧
      c'.logo = c.logo ∧
      ((streams.filter fun s => s.channel == c.id) = [] →
        c'.streams = c.streams) ∧
      ((streams.filter fun s => s.channel == c.id) ≠ [] →
        c'.streams = some (streams.filter fun s => s.channel == c.id)) := by
  unfold match_streams_to_channels
  rw [List.get?_map, h]
  simp only [Option.map_some']
  by_cases hf : (streams.filter fun s => s.channel == c.id) = []
  · refine ⟨c, ?_, rfl, rfl, rfl, rfl, rfl, rfl, fun _ => rfl,
      fun hne => absurd hf hne⟩
    simp [hf]
  · refine ⟨{ c with streams := some (streams.filter fun s => s.channel == c.id) },
      ?_, rfl, rfl, rfl, rfl, rfl, rfl, fun heq => absurd heq hf,
      fun _ => rfl⟩
    simp [List.isEmpty_iff, hf]

/-- Witness for C4's amended theorem on a concrete channel and stream. -/
theorem join_pointwise_spec_witness :
    ∃ c', (match_streams_to_channels [sampleChannel]
        [sampleStream]).get? 0 = some c' ∧
      c'.id = sampleChannel.id ∧ c'.name = sampleChannel.name ∧
      c'.country = sampleChannel.country ∧
      c'.languages = sampleChannel.languages ∧
      c'.categories = sampleChannel.categories ∧
      c'.logo = sampleChannel.logo ∧
      (([sampleStream].filter fun s => s.channel == sampleChannel.id)
          = [] → c'.streams = sampleChannel.streams) ∧
      (([sampleStream].filter fun s => s.channel == sampleChannel.id)
          ≠ [] → c'.streams =
            some ([sampleStream].filter
              fun s => s.channel == sampleChannel.id)) :=
  join_pointwise_spec [sampleChannel] [sampleStream] 0 sampleChannel rfl

/-- Counterexample to C4 as stated: joining an empty stream list onto a
channel that already carries a `streams` value (for example the cached
record of a previous pipeline run) leaves that stale value in place, so
the streams attached after the join are neither the (empty) matching
subsequence nor an absent/empty field. -/
theorem join_keeps_stale_streams_cex :
    (([] : List StreamRecord).filter
        fun s => s.channel == sampleChannelJoined.id) = [] ∧
    (match_streams_to_channels [sampleChannelJoined] []).map
        Channel.streams = [some [sampleStream]] ∧
    (some [sampleStream] : Option (List StreamRecord)) ≠ none ∧
    (some [sampleStream] : Option (List StreamRecord)) ≠ some [] := by
  refine ⟨rfl, rfl, by decide, by decide⟩

/-- C7.  The Refresh Pipeline short-circuits on empty data: when the
channel fetch yields no records (`None` or `[]`), it returns an empty
Served View without ever attempting the stream fetch (the stream cache
slice is untouched and the attempted-flag is `false`); when the channel
fetch yields records but the stream fetch yields none, it returns an
empty Served View without filtering, joining, or touching the cached
channel entry. -/
theorem pipeline_short_circuits_on_empty (now : Nat)
    (netCh : Option (List Channel)) (netSt : Option (List StreamRecord))
    (st : AppState) (chRes : Option (List Channel))
    (chSt1 : FetchState (List Channel)) (b1 : Bool)
    (h1 : fetch_with_cache now netCh IPTV_CHANNELS_URL st.chSt =
      .ok (chRes, chSt1, b1)) :
    ((chRes = none ∨ chRes = some []) →
      fetch_channels now netCh netSt st =
        .ok ([], ⟨chSt1, st.stSt⟩, false)) ∧
    (∀ channels, chRes = some channels → channels ≠ [] →
      ∀ stRes stSt1 b2,
        fetch_with_cache now netSt IPTV_STREAMS_URL st.stSt =
          .ok (stRes, stSt1, b2) →
        (stRes = none ∨ stRes = some []) →
        fetch_channels now netCh netSt st =
          .ok ([], ⟨chSt1, stSt1⟩, true)) := by
  constructor
  · rintro (rfl | rfl) <;>
      · unfold fetch_channels
        simp [h1]
  · rintro channels rfl hne stRes stSt1 b2 h2 (rfl | rfl) <;>
      · unfold fetch_channels
        simp [h1, h2, List.isEmpty_iff, hne]

/-- Witness for C7 on the cold empty cache: the channel fetch fails with
nothing cached, and the pipeline returns the empty view without a stream
fetch. -/
theorem pipeline_short_circuits_on_empty_witness :
    fetch_channels 0 none none initialAppState =
      .ok ([], ⟨initialFetchState (List Channel),
        initialFetchState (List StreamRecord)⟩, false) :=
  (pipeline_short_circuits_on_empty 0 none none initialAppState none
    (initialFetchState (List Channel)) true rfl).1 (Or.inl rfl)

/-- C9.  Cache-state invariant: from the empty dicts, any sequence of
`fetch_with_cache` calls keeps every `cache` key covered by a
`cache_expiry` key (both dicts are written together on a successful
fetch), so the freshness check's `cache_expiry[url]` subscript never
raises `KeyError` — `fetch_with_cache` never returns an error from a
reachable state. -/
theorem cache_reachable_keys_covered {α : Type} (st : FetchState α)
    (h : CacheReachable st) :
    cache_keys_covered st ∧
      ∀ now net url e, fetch_with_cache now net url st ≠ .error e := by
  have hcov : cache_keys_covered st := by
    induction h with
    | init =>
      intro u hmem
      simp [initialFetchState, dlookup] at hmem
    | step hprev heq ih => exact cache_keys_covered_preserved ih heq
  exact ⟨hcov, fun now net url e => fetch_no_error_of_covered hcov now net url e⟩

/-- Witness for C9 at the initial state. -/
theorem cache_reachable_keys_covered_witness :
    cache_keys_covered (initialFetchState (List Channel)) ∧
      ∀ now net url e, fetch_with_cache now net url
        (initialFetchState (List Channel)) ≠ .error e :=
  cache_reachable_keys_covered (initialFetchState (List Channel))
    CacheReachable.init

/-- C8.  The scheduled refresh task never raises: every exception the
refresh body can produce is an `Exception` subclass (in the embedding,
the `KeyError` of the freshness check), and `refresh_data` wraps the body
in `try ... except Exception`, so every run completes with some state and
no propagated error — the scheduler is never terminated by a refresh
failure. -/
theorem refresh_data_never_raises (now : Nat)
    (netCh : Option (List Channel)) (netSt : Option (List StreamRecord))
    (st : AppState) :
    ∃ st', refresh_data now netCh netSt st = .ok st' := by
  unfold refresh_data
  cases hfc : fetch_channels now netCh netSt st with
  | ok r =>
    obtain ⟨view, st', b⟩ := r
    exact ⟨st', rfl⟩
  | error p =>
    obtain ⟨e, stE⟩ := p
    obtain ⟨k, rfl⟩ := fetch_channels_error_keyError hfc
    exact ⟨stE, rfl⟩

/-- C5 (amended).  The Stream Joiner is pure as a function of its
arguments, but it updates the channel records in place, and those records
are the elements of the cached channels list: a pipeline run that returns
a non-empty Served View rewrites the Fetch Cache entry under the channels
URL to the joined records (`join_effect` applied to every cached record),
and every record of the Served View is one of the records now stored in
the cache — the view aliases the cache rather than being owned
exclusively by the caller, so cached channel records are *not* identical
before and after a run whenever some filtered-in channel has a non-empty
stream match. -/
theorem pipeline_rewrites_cache_entry (now : Nat)
    (netCh : Option (List Channel)) (netSt : Option (List StreamRecord))
    (st : AppState) (view : List Channel) (st' : AppState) (b : Bool)
    (h : fetch_channels now netCh netSt st = .ok (view, st', b))
    (hne : view ≠ []) :
    ∃ channels streams,
      dlookup IPTV_CHANNELS_URL st'.chSt.cache =
        some (channels.map (join_effect streams)) ∧
      view = match_streams_to_channels (filter_channels channels)
        streams ∧
      ∀ c ∈ view, c ∈ channels.map (join_effect streams) := by
  unfold fetch_channels at h
  cases hch : fetch_with_cache now netCh IPTV_CHANNELS_URL st.chSt with
  | error e1 =>
    simp only [hch] at h
    exact Except.noConfusion h
  | ok res =>
    obtain ⟨chRes, chSt1, b1⟩ := res
    simp only [hch] at h
    cases chRes with
    | none =>
      simp only [Except.ok.injEq, Prod.mk.injEq] at h
      exact absurd h.1.symm hne
    | some channels =>
      by_cases hch0 : channels.isEmpty
      · simp only [hch0, if_true, Except.ok.injEq, Prod.mk.injEq] at h
        exact absurd h.1.symm hne
      · simp only [hch0, if_false, Bool.false_eq_true, ite_false] at h
        cases hst : fetch_with_cache now netSt IPTV_STREAMS_URL st.stSt with
        | error e2 =>
          simp only [hst] at h
          exact Except.noConfusion h
        | ok res2 =>
          obtain ⟨stRes, stSt1, b2⟩ := res2
          simp only [hst] at h
          cases stRes with
          | none =>
            simp only [Except.ok.injEq, Prod.mk.injEq] at h
            exact absurd h.1.symm hne
          | some streams =>
            by_cases hst0 : streams.isEmpty
            · simp only [hst0, if_true, Except.ok.injEq,
                Prod.mk.injEq] at h
              exact absurd h.1.symm hne
            · simp only [hst0, if_false, Bool.false_eq_true, ite_false,
                Except.ok.injEq, Prod.mk.injEq] at h
              obtain ⟨h1, h2, h3⟩ := h
              subst h1; subst h2
              refine ⟨channels, streams, ?_, rfl, ?_⟩
              · simp [dlookup_dinsert]
              · intro c hc
                simp only [match_streams_to_channels,
                  List.mem_map] at hc
                obtain ⟨c0, hc0, rfl⟩ := hc
                rw [filter_channels, filter_channels_with,
                  List.mem_filter] at hc0
                refine List.mem_map.mpr ⟨c0, hc0.1, ?_⟩
                simp [join_effect, hc0.2]

/-- Witness for C5's amended theorem: a run over the fresh sample cache
joins `sampleStream` onto the cached `sampleChannel` and stores the
joined record back. -/
theorem pipeline_rewrites_cache_entry_witness :
    ∃ channels streams,
      dlookup IPTV_CHANNELS_URL sampleAppStateJoined.chSt.cache =
        some (channels.map (join_effect streams)) ∧
      [sampleChannelJoined] =
        match_streams_to_channels (filter_channels channels) streams ∧
      ∀ c ∈ [sampleChannelJoined],
        c ∈ channels.map (join_effect streams) :=
  pipeline_rewrites_cache_entry 0 none none sampleAppState
    [sampleChannelJoined] sampleAppStateJoined true rfl (by decide)

/-- Counterexample to C5 as stated: before the run the cache stores the
un-joined `sampleChannel`; the run returns the joined record *and* the
cached record has changed to that joined record, so a previously existing
record was mutated by the pipeline. -/
theorem pipeline_mutates_cached_channels_cex :
    dlookup IPTV_CHANNELS_URL sampleAppState.chSt.cache =
      some [sampleChannel] ∧
    (fetch_channels 0 none none sampleAppState).map
        (fun r => dlookup IPTV_CHANNELS_URL r.2.1.chSt.cache) =
      .ok (some [sampleChannelJoined]) ∧
    sampleChannelJoined ≠ sampleChannel :=
  ⟨rfl, rfl, by decide⟩
